import Mathlib

/-!
Verification of the client-side compositing engine of the image-combiner
subsystem (dual-media preview, gesture control, and composite export).

Numbers are modelled as rationals (`ℚ`): the source operates on JS doubles,
and every quantity the verified claims touch is produced by field
operations on finite inputs, so `Number.isFinite` guards are vacuously
true in this model and are noted where they occur in the source.
-/

namespace Combiner

/-- From `lib/utils`: `clamp(num, min, max) = Math.min(Math.max(num, min), max)`. -/
def clamp (num mn mx : ℚ) : ℚ :=
  min (max num mn) mx

/-- The media kinds the loader distinguishes (`MediaType` minus `null`). -/
inductive MediaKind where
  | image
  | video
deriving DecidableEq, Repr

/-- A decoded drawable element: its kind and natural (source) dimensions,
`naturalWidth`/`naturalHeight` for images, `videoWidth`/`videoHeight` for
videos. -/
structure Element where
  kind : MediaKind
  w : ℚ
  h : ℚ
deriving DecidableEq, Repr

/-- A source-space rectangle `(sx, sy, sWidth, sHeight)` handed to
`drawImage`. -/
structure SrcRect where
  sx : ℚ
  sy : ℚ
  sw : ℚ
  sh : ℚ
deriving DecidableEq, Repr

/-- From `combined-preview-area.tsx`, `drawMediaSection`: the per-slot draw
of the live preview.  Given the media element, the canvas target size
(`targetCanvasWidth`, `targetCanvasHeight`), the zoom percentage and the
relative focus, it either aborts (returns `none`, the source's early
`ctx.restore(); return` paths) or yields the source rectangle passed to
`ctx.drawImage`.  The `Number.isFinite` checks of the source are vacuous
over `ℚ`. -/
def drawMediaSection (mediaElement : Option Element)
    (targetCanvasWidth targetCanvasHeight zoomPercent : ℚ)
    (relativeFocus : ℚ × ℚ) : Option SrcRect :=
  let dWidth := targetCanvasWidth / 2
  let dHeight := targetCanvasHeight
  match mediaElement with
  | none => none
  | some m =>
    let sourceWidth := m.w
    let sourceHeight := m.h
    if sourceWidth = 0 ∨ sourceHeight = 0 ∨ sourceWidth ≤ 0 ∨ sourceHeight ≤ 0 then
      none
    else
      let overallScale := zoomPercent / 100
      let sourceAspect := sourceWidth / sourceHeight
      let destAspect := dWidth / dHeight
      let coverScale := if sourceAspect > destAspect then dHeight / sourceHeight
        else dWidth / sourceWidth
      let finalScale := coverScale * overallScale
      if finalScale ≤ 0 then
        none
      else
        let sWidthFinal := dWidth / finalScale
        let sHeightFinal := dHeight / finalScale
        let sxIdeal := sourceWidth * relativeFocus.1 - sWidthFinal / 2
        let syIdeal := sourceHeight * relativeFocus.2 - sHeightFinal / 2
        let sx := clamp sxIdeal 0 (max 0 (sourceWidth - sWidthFinal))
        let sy := clamp syIdeal 0 (max 0 (sourceHeight - sHeightFinal))
        if 0 < sWidthFinal ∧ 0 < sHeightFinal ∧ 0 < dWidth ∧ 0 < dHeight then
          some ⟨sx, sy, sWidthFinal, sHeightFinal⟩
        else
          none

/-- From `index.tsx`, `drawFinalMedia` inside `saveCompositeImage`: the
per-slot draw of the composite exporter, at export resolution
(`outputWidth`, `outputHeight`).  Returns the source rectangle passed to
`finalCtx.drawImage`, or `none` on the early-return paths.  The section
argument only selects the destination offset on the final canvas and does
not influence the source rectangle, so it is omitted here. -/
def drawFinalMedia (mediaEl : Element)
    (outputWidth outputHeight zoom : ℚ) (focus : ℚ × ℚ) : Option SrcRect :=
  let sectionWidth := outputWidth / 2
  let sectionHeight := outputHeight
  let sourceWidth := mediaEl.w
  let sourceHeight := mediaEl.h
  if sourceWidth ≤ 0 ∨ sourceHeight ≤ 0 then
    none
  else
    let overallScale := zoom / 100
    let sourceAspect := sourceWidth / sourceHeight
    let destAspect := sectionWidth / sectionHeight
    let coverScale := if sourceAspect > destAspect then sectionHeight / sourceHeight
      else sectionWidth / sourceWidth
    let finalScale := coverScale * overallScale
    if finalScale ≤ 0 then
      none
    else
      let sWidthFinal := sectionWidth / finalScale
      let sHeightFinal := sectionHeight / finalScale
      let sxIdeal := sourceWidth * focus.1 - sWidthFinal / 2
      let syIdeal := sourceHeight * focus.2 - sHeightFinal / 2
      let sx := clamp sxIdeal 0 (max 0 (sourceWidth - sWidthFinal))
      let sy := clamp syIdeal 0 (max 0 (sourceHeight - sHeightFinal))
      if 0 < sWidthFinal ∧ 0 < sHeightFinal then
        some ⟨sx, sy, sWidthFinal, sHeightFinal⟩
      else
        none

end Combiner

namespace Combiner

/-- The state of `ImageCombiner` (from `index.tsx`) that the export path
reads: the three slots' loaded elements, whether a logo source was
provided (`logo` non-null), the loading flags, and the per-slot view
parameters. -/
structure CombinerState where
  leftMediaElement : Option Element
  rightMediaElement : Option Element
  logo : Bool
  logoElement : Option Element
  isLoadingLeft : Bool
  isLoadingRight : Bool
  isLoadingLogo : Bool
  leftZoom : ℚ
  rightZoom : ℚ
  logoZoom : ℚ
  leftRelativeFocus : ℚ × ℚ
  rightRelativeFocus : ℚ × ℚ
  logoPosition : ℚ × ℚ
deriving DecidableEq, Repr

/-- `element instanceof HTMLImageElement && element.naturalWidth > 0 &&
element.naturalHeight > 0` (the repeated check in `canSaveComposite`). -/
def isLoadedImage : Option Element → Prop
  | some e => e.kind = .image ∧ 0 < e.w ∧ 0 < e.h
  | none => False

instance instDecIsLoadedImage : (e : Option Element) → Decidable (isLoadedImage e)
  | some e => inferInstanceAs (Decidable (e.kind = .image ∧ 0 < e.w ∧ 0 < e.h))
  | none => inferInstanceAs (Decidable False)

/-- From `index.tsx`, the `canSaveComposite` memo: export is possible only
when both main slots hold loaded images, the logo (if a source was
provided) is a loaded image and not still loading, and neither main slot
is loading. -/
def canSaveComposite (s : CombinerState) : Prop :=
  isLoadedImage s.leftMediaElement ∧ isLoadedImage s.rightMediaElement ∧
    (s.logo = true → isLoadedImage s.logoElement ∧ s.isLoadingLogo = false) ∧
    s.isLoadingLeft = false ∧ s.isLoadingRight = false

instance instDecCanSaveComposite (s : CombinerState) :
    Decidable (canSaveComposite s) := by
  unfold canSaveComposite
  infer_instance

/-- The preview container's aspect ratio as read in `saveCompositeImage`:
`offsetWidth / offsetHeight` when the container exists with positive
dimensions, `16 / 9` otherwise. -/
def displayAspect : Option (ℚ × ℚ) → ℚ
  | some (w, h) => if 0 < w ∧ 0 < h then w / h else 16 / 9
  | none => 16 / 9

/-- The observable outcome of a successful `saveCompositeImage` run: the
final canvas dimensions, the two per-section draw calls, the optional
logo draw call, and the download/encoding parameters passed to
`canvas.toBlob` and the anchor element. -/
structure ExportJob where
  width : ℚ
  height : ℤ
  leftRect : Option SrcRect
  rightRect : Option SrcRect
  logoDraw : Option (ℚ × ℚ × ℚ × ℚ)
  fileName : String
  mimeType : String
  quality : ℚ
deriving DecidableEq, Repr

/-- The error message set when `canSaveComposite` denies an export. -/
def saveErrorNotReady : String :=
  "Select two valid image files and ensure the logo (if selected) is loaded. Both left and right sides must be images."

/-- From `index.tsx`, `saveCompositeImage`: denies with an error message
and performs no canvas work when `canSaveComposite` is false; otherwise
computes the final canvas size (`Math.max(left, right, 500) * 2` wide,
`Math.ceil(finalWidth / displayAspect)` tall), rejects non-positive
dimensions, draws both halves with `drawFinalMedia`, draws the clamped
logo overlay, and encodes/downloads as `imagem-combinada.png`. -/
def saveCompositeImage (s : CombinerState) (container : Option (ℚ × ℚ)) :
    Except String ExportJob :=
  if canSaveComposite s then
    match s.leftMediaElement, s.rightMediaElement with
    | some safeLeftElement, some safeRightElement =>
      let targetWidthPerImage := max (max safeLeftElement.w safeRightElement.w) 500
      let finalWidth := targetWidthPerImage * 2
      let aspect := displayAspect container
      let finalHeight : ℤ := ⌈finalWidth / aspect⌉
      if ¬(0 < finalWidth ∧ 0 < finalHeight) then
        Except.error "Final image dimensions calculated invalid."
      else
        let safeLogoElement : Option Element :=
          match s.logoElement with
          | some e => if e.kind = .image then some e else none
          | none => none
        let logoDraw : Option (ℚ × ℚ × ℚ × ℚ) :=
          match safeLogoElement with
          | some logoEl =>
            let logoAspect := if logoEl.w = 0 then 1 else logoEl.h / logoEl.w
            let targetLogoWidth := finalWidth * s.logoZoom / 100
            let targetLogoHeight := targetLogoWidth * logoAspect
            let logoCenterX := finalWidth * s.logoPosition.1 / 100
            let logoCenterY := (finalHeight : ℚ) * s.logoPosition.2 / 100
            let logoDrawX := clamp (logoCenterX - targetLogoWidth / 2) 0
              (max 0 (finalWidth - targetLogoWidth))
            let logoDrawY := clamp (logoCenterY - targetLogoHeight / 2) 0
              (max 0 ((finalHeight : ℚ) - targetLogoHeight))
            if 0 < targetLogoWidth ∧ 0 < targetLogoHeight then
              some (logoDrawX, logoDrawY, targetLogoWidth, targetLogoHeight)
            else none
          | none => none
        Except.ok
          { width := finalWidth, height := finalHeight,
            leftRect := drawFinalMedia safeLeftElement finalWidth (finalHeight : ℚ)
              s.leftZoom s.leftRelativeFocus,
            rightRect := drawFinalMedia safeRightElement finalWidth (finalHeight : ℚ)
              s.rightZoom s.rightRelativeFocus,
            logoDraw := logoDraw,
            fileName := "imagem-combinada.png",
            mimeType := "image/png",
            quality := 95 / 100 }
    | _, _ => Except.error saveErrorNotReady
  else
    Except.error saveErrorNotReady

/-- Scenario A state: left slot an 800×600 loaded image, right slot a
1200×900 loaded image, no logo, nothing loading, default view
parameters. -/
def scenarioAState : CombinerState :=
  { leftMediaElement := some ⟨.image, 800, 600⟩,
    rightMediaElement := some ⟨.image, 1200, 900⟩,
    logo := false, logoElement := none,
    isLoadingLeft := false, isLoadingRight := false, isLoadingLogo := false,
    leftZoom := 100, rightZoom := 100, logoZoom := 10,
    leftRelativeFocus := (1/2, 1/2), rightRelativeFocus := (1/2, 1/2),
    logoPosition := (50, 90) }

/-- The export job `saveCompositeImage` produces for `scenarioAState` with
a 16:9 container. -/
def scenarioAJob : ExportJob :=
  { width := 2400, height := 1350,
    leftRect := some ⟨400/3, 0, 1600/3, 600⟩,
    rightRect := some ⟨200, 0, 800, 900⟩,
    logoDraw := none,
    fileName := "imagem-combinada.png", mimeType := "image/png",
    quality := 95/100 }

/-- Scenario B state: right slot still loading (`loading = true`,
element still null). -/
def scenarioBState : CombinerState :=
  { leftMediaElement := some ⟨.image, 800, 600⟩,
    rightMediaElement := none,
    logo := false, logoElement := none,
    isLoadingLeft := false, isLoadingRight := true, isLoadingLogo := false,
    leftZoom := 100, rightZoom := 100, logoZoom := 10,
    leftRelativeFocus := (1/2, 1/2), rightRelativeFocus := (1/2, 1/2),
    logoPosition := (50, 90) }

/-- A state whose export width (1600) is not an exact multiple of a 3:1
container aspect, exposing the `Math.ceil` in the height computation. -/
def heightCexState : CombinerState :=
  { leftMediaElement := some ⟨.image, 800, 600⟩,
    rightMediaElement := some ⟨.image, 600, 450⟩,
    logo := false, logoElement := none,
    isLoadingLeft := false, isLoadingRight := false, isLoadingLogo := false,
    leftZoom := 100, rightZoom := 100, logoZoom := 10,
    leftRelativeFocus := (1/2, 1/2), rightRelativeFocus := (1/2, 1/2),
    logoPosition := (50, 90) }

/-- The export job `saveCompositeImage` produces for `heightCexState`
with a 300×100 container: width 1600, height `⌈1600/3⌉ = 534`. -/
def heightCexJob : ExportJob :=
  { width := 1600, height := 534,
    leftRect := some ⟨0, 33, 800, 534⟩,
    rightRect := some ⟨0, 99/4, 600, 801/2⟩,
    logoDraw := none,
    fileName := "imagem-combinada.png", mimeType := "image/png",
    quality := 95/100 }

/-- Classified failures of `loadMediaElement` (the distinct `Error`
messages it rejects with). -/
inductive LoadError where
  | timeout
  | invalidDimensions
  | decodeError
deriving DecidableEq, Repr

/-- How the underlying decode behaves for one load attempt: the ready
event fires at time `t` (milliseconds) with the element reporting `w × h`,
the error event fires at time `t`, or no event ever fires. -/
inductive DecodeOutcome where
  | completes (t : ℚ) (w : ℚ) (h : ℚ)
  | fails (t : ℚ)
  | hangs
deriving DecidableEq, Repr

/-- The load timeout of `loadMediaElement`: `setTimeout(..., 20000)`. -/
def timeoutMs : ℚ := 20000

/-- The decode either completed or errored strictly before the 20-second
timer fired; otherwise the timer wins the race. -/
def timedOut : DecodeOutcome → Prop
  | .completes t _ _ => timeoutMs ≤ t
  | .fails t => timeoutMs ≤ t
  | .hangs => True

/-- The observable outcome of one `loadMediaElement` promise: how it
settled, and whether the in-flight element's `src` was cleared (the
active halt performed by the timeout handler). -/
structure LoadAttempt where
  result : Except LoadError (Option Element)
  srcCleared : Bool
deriving Repr

/-- From `index.tsx`, `loadMediaElement`: resolves `null` for a null
source/type; resolves the decoded element when the ready event fires in
time with positive dimensions; rejects `invalidDimensions` when a
dimension is zero; rejects with a decode error when the error event fires
in time; and when the 20-second timer fires first it clears the element's
`src` (halting the decode) and rejects with the timeout error. -/
def loadMediaElement (ty : Option MediaKind) (outcome : DecodeOutcome) :
    LoadAttempt :=
  match ty with
  | none => { result := Except.ok none, srcCleared := false }
  | some k =>
    match outcome with
    | .completes t w h =>
      if t < timeoutMs then
        if 0 < w ∧ 0 < h then
          { result := Except.ok (some ⟨k, w, h⟩), srcCleared := false }
        else
          { result := Except.error LoadError.invalidDimensions, srcCleared := false }
      else { result := Except.error LoadError.timeout, srcCleared := true }
    | .fails t =>
      if t < timeoutMs then
        { result := Except.error LoadError.decodeError, srcCleared := false }
      else { result := Except.error LoadError.timeout, srcCleared := true }
    | .hangs => { result := Except.error LoadError.timeout, srcCleared := true }

/-- One left/right slot of `ImageCombiner`: loaded element, loading flag,
per-slot load error, and view parameters. -/
structure SlotState where
  element : Option Element
  loading : Bool
  loadError : Option String
  zoom : ℚ
  relativeFocus : ℚ × ℚ
deriving DecidableEq, Repr

/-- The synchronous prefix of `loadMediaEffect` for a left/right slot:
`setLoading(true)`, clear the previous element, clear the load and save
errors, and `resetFocusZoom()` (focus `{0.5, 0.5}`, zoom `100`). -/
def loadMediaEffectBegin (s : SlotState) : SlotState :=
  { s with
    loading := true, element := none, loadError := none,
    relativeFocus := (1/2, 1/2), zoom := 100 }

/-- How `loadMediaEffect` applies a settled `loadMediaElement` promise to
the slot: on success the element is stored; on rejection the element is
set to null and the user-facing load error is set; either way `loading`
ends false. -/
def applyLoadResult (s : SlotState) (r : Except LoadError (Option Element)) :
    SlotState :=
  match r with
  | Except.ok el => { s with element := el, loading := false }
  | Except.error _ =>
    { s with
      element := none, loadError := some "Error loading media.",
      loading := false }

/-- The logo slot: loaded element, loading flag, error, relative width
percentage (`logoZoom`) and centre position in container percent. -/
structure LogoSlotState where
  element : Option Element
  loading : Bool
  loadError : Option String
  zoom : ℚ
  position : ℚ × ℚ
deriving DecidableEq, Repr

/-- The synchronous prefix of `loadLogoEffect`: clear element and errors,
start loading, and `resetLogoPosZoom()` (position `{50, 90}`, relative
width `10`). -/
def loadLogoEffectBegin (s : LogoSlotState) : LogoSlotState :=
  { s with
    loading := true, element := none, loadError := none,
    zoom := 10, position := (50, 90) }

/-- `MIN_ZOOM` from `combined-preview-area.tsx`. -/
def MIN_ZOOM : ℚ := 10

/-- `MAX_ZOOM` from `combined-preview-area.tsx`. -/
def MAX_ZOOM : ℚ := 500

/-- The interaction targets of `CombinedPreviewArea` (`DragType` minus
`null`; `activeDrag` is modelled as `Option DragType`). -/
inductive DragType where
  | left
  | right
  | logo
deriving DecidableEq, Repr

/-- `PinchSide` minus `null`. -/
inductive PinchSide where
  | left
  | right
deriving DecidableEq, Repr

/-- The interactive state of `CombinedPreviewArea`: the props it reads
(elements, zooms, focus/position) plus its internal gesture state hooks. -/
structure PreviewState where
  leftMediaElement : Option Element
  rightMediaElement : Option Element
  logoElement : Option Element
  leftZoom : ℚ
  rightZoom : ℚ
  logoZoom : ℚ
  leftRelativeFocus : ℚ × ℚ
  rightRelativeFocus : ℚ × ℚ
  logoPosition : ℚ × ℚ
  activeDrag : Option DragType
  dragStart : ℚ × ℚ
  initialDragFocus : ℚ × ℚ
  initialLogoPos : ℚ × ℚ
  isTouching : Bool
  isPinching : Bool
  initialPinchDistance : ℚ
  pinchSide : Option PinchSide
  zoomAtPinchStart : ℚ
deriving DecidableEq, Repr

/-- The `mediaExists` check shared by the interaction handlers. -/
def mediaExists (s : PreviewState) : DragType → Bool
  | .left => s.leftMediaElement.isSome
  | .right => s.rightMediaElement.isSome
  | .logo => s.logoElement.isSome

/-- The touch payload of an event as consumed by the handlers: one touch
carries its client coordinates; two touches carry
`calculateDistance(touches[0], touches[1])` (the Euclidean distance,
abstracted to the scalar the handlers consume, since only this scalar is
read downstream); anything else is ignored defensively. -/
inductive TouchesInfo where
  | one (clientX clientY : ℚ)
  | two (dist : ℚ)
  | other (n : ℕ)
deriving DecidableEq, Repr

/-- From `combined-preview-area.tsx`, `handleInteractionStart`: reset the
gesture state defensively, then start a drag for `ty` when its media
exists and no pinch is in flight, snapshotting the drag origin and the
slot's focus/position.  All reads observe the render-time state `s`
(React state updates are applied after the handler runs). -/
def handleInteractionStart (s : PreviewState) (clientX clientY : ℚ)
    (ty : DragType) (isTouch : Bool) : PreviewState :=
  let s1 := { s with
    activeDrag := none, isPinching := false,
    pinchSide := none, initialPinchDistance := 0, isTouching := isTouch }
  if !(mediaExists s ty) then { s1 with isTouching := false }
  else if isTouch && s.isPinching then s1
  else
    let s2 := { s1 with activeDrag := some ty, dragStart := (clientX, clientY) }
    match ty with
    | .left => { s2 with initialDragFocus := s.leftRelativeFocus }
    | .right => { s2 with initialDragFocus := s.rightRelativeFocus }
    | .logo => { s2 with initialLogoPos := s.logoPosition }

/-- `handleDragEnd`: clears the active drag (and cancels the pending
animation frame, which carries no modelled state). -/
def handleDragEnd (s : PreviewState) : PreviewState :=
  { s with activeDrag := none }

/-- The `panMedia` closure inside `handleDragMove`: converts the pixel
delta into focus space by dividing by the on-screen source size
(`sourceDim * coverScale * zoom`), and clamps the new focus into
`[0,1] × [0,1]`.  Returns `none` on the non-positive/non-finite scale
guard. -/
def panMedia (mediaElement : Element) (zoom : ℚ) (initialFocus : ℚ × ℚ)
    (deltaX deltaY previewHalfWidth containerHeight : ℚ) : Option (ℚ × ℚ) :=
  let currentZoom := zoom / 100
  let sourceWidth := if mediaElement.w = 0 then 1 else mediaElement.w
  let sourceHeight := if mediaElement.h = 0 then 1 else mediaElement.h
  let destAspect := previewHalfWidth / containerHeight
  let sourceAspect := sourceWidth / sourceHeight
  let scaleToCover := if sourceAspect > destAspect then
    containerHeight / sourceHeight else previewHalfWidth / sourceWidth
  let finalScale := scaleToCover * currentZoom
  if finalScale ≤ 0 then none
  else
    let effectiveFocusDeltaX := deltaX / (sourceWidth * finalScale)
    let effectiveFocusDeltaY := deltaY / (sourceHeight * finalScale)
    some (clamp (initialFocus.1 - effectiveFocusDeltaX) 0 1,
      clamp (initialFocus.2 - effectiveFocusDeltaY) 0 1)

/-- From `combined-preview-area.tsx`, `handleDragMove`: ignored while no
drag is active or a pinch is in flight, or when the container cannot be
measured; otherwise pans the dragged slot's focus via `panMedia`, or
moves the logo by the percent delta clamped into `[0,100] × [0,100]`,
writing only when the value changed. -/
def handleDragMove (s : PreviewState)
    (containerWidth containerHeight clientX clientY : ℚ) : PreviewState :=
  if s.activeDrag = none ∨ s.isPinching = true then s
  else
    let deltaX := clientX - s.dragStart.1
    let deltaY := clientY - s.dragStart.2
    if containerWidth ≤ 0 ∨ containerHeight ≤ 0 then s
    else
      let previewHalfWidth := containerWidth / 2
      match s.activeDrag with
      | some .left =>
        match s.leftMediaElement with
        | some m =>
          match panMedia m s.leftZoom s.initialDragFocus deltaX deltaY
            previewHalfWidth containerHeight with
          | some f =>
            if f ≠ s.leftRelativeFocus then { s with leftRelativeFocus := f }
            else s
          | none => s
        | none => s
      | some .right =>
        match s.rightMediaElement with
        | some m =>
          match panMedia m s.rightZoom s.initialDragFocus deltaX deltaY
            previewHalfWidth containerHeight with
          | some f =>
            if f ≠ s.rightRelativeFocus then { s with rightRelativeFocus := f }
            else s
          | none => s
        | none => s
      | some .logo =>
        match s.logoElement with
        | some _ =>
          let percentDeltaX := deltaX / containerWidth * 100
          let percentDeltaY := deltaY / containerHeight * 100
          let newLogoX := clamp (s.initialLogoPos.1 + percentDeltaX) 0 100
          let newLogoY := clamp (s.initialLogoPos.2 + percentDeltaY) 0 100
          if (newLogoX, newLogoY) ≠ s.logoPosition then
            { s with logoPosition := (newLogoX, newLogoY) }
          else s
        | none => s
      | none => s

/-- From `combined-preview-area.tsx`, `handleTouchStart` (target-area
checks assumed to have matched): a single touch starts a drag via
`handleInteractionStart` unless a pinch is in flight; two touches over a
left/right slot cancel any active drag and begin a pinch, snapshotting
the two-finger distance and the slot's current zoom; anything else is
ignored. -/
def handleTouchStart (s : PreviewState) (ty : DragType)
    (touches : TouchesInfo) : PreviewState :=
  if !(mediaExists s ty) then s
  else
    match touches with
    | .one clientX clientY =>
      if s.isPinching = false then handleInteractionStart s clientX clientY ty true
      else s
    | .two dist =>
      match ty with
      | .logo => s
      | .left =>
        let s1 := if s.activeDrag.isSome then handleDragEnd s else s
        { s1 with
          isPinching := true, isTouching := false,
          pinchSide := some PinchSide.left, initialPinchDistance := dist,
          zoomAtPinchStart := s.leftZoom }
      | .right =>
        let s1 := if s.activeDrag.isSome then handleDragEnd s else s
        { s1 with
          isPinching := true, isTouching := false,
          pinchSide := some PinchSide.right, initialPinchDistance := dist,
          zoomAtPinchStart := s.rightZoom }
    | .other _ => s

/-- From `combined-preview-area.tsx`, `handleTouchMove`: during a pinch
with two touches, the slot's zoom becomes the pinch-start zoom scaled by
the ratio of the current to the initial two-finger distance, clamped to
`[MIN_ZOOM, MAX_ZOOM]` (guarding a zero initial distance); during a
one-finger touch drag it delegates to `handleDragMove`; otherwise it is
ignored. -/
def handleTouchMove (s : PreviewState) (containerWidth containerHeight : ℚ)
    (touches : TouchesInfo) : PreviewState :=
  match touches with
  | .two currentDist =>
    if s.isPinching = true ∧ s.pinchSide.isSome then
      if s.initialPinchDistance ≤ 0 then s
      else
        let scale := currentDist / s.initialPinchDistance
        let newZoom := clamp (s.zoomAtPinchStart * scale) MIN_ZOOM MAX_ZOOM
        match s.pinchSide with
        | some PinchSide.left =>
          if s.leftZoom ≠ newZoom then { s with leftZoom := newZoom } else s
        | some PinchSide.right =>
          if s.rightZoom ≠ newZoom then { s with rightZoom := newZoom } else s
        | none => s
    else s
  | .one clientX clientY =>
    if s.activeDrag.isSome ∧ s.isTouching = true ∧ s.isPinching = false then
      handleDragMove s containerWidth containerHeight clientX clientY
    else s
  | .other _ => s

/-- The interaction target a pinch side corresponds to. -/
def pinchSideDrag : PinchSide → DragType
  | .left => .left
  | .right => .right

/-- The zoom of the slot on the given side. -/
def sideZoom (s : PreviewState) : PinchSide → ℚ
  | .left => s.leftZoom
  | .right => s.rightZoom

/-- From `control-panel.tsx`: the horizontal logo-position numeric input
stores `clamp(Number(value), 0, 100)` into `logoPosition.x`. -/
def controlPanelSetLogoX (logoPosition : ℚ × ℚ) (v : ℚ) : ℚ × ℚ :=
  (clamp v 0 100, logoPosition.2)

/-- From `control-panel.tsx`: the vertical logo-position numeric input
stores `clamp(Number(value), 0, 100)` into `logoPosition.y`. -/
def controlPanelSetLogoY (logoPosition : ℚ × ℚ) (v : ℚ) : ℚ × ℚ :=
  (logoPosition.1, clamp v 0 100)

/-- A preview state mid-drag on the left slot, used as a concrete
witness input. -/
def dragState : PreviewState :=
  { leftMediaElement := some ⟨.image, 100, 100⟩,
    rightMediaElement := none, logoElement := none,
    leftZoom := 100, rightZoom := 100, logoZoom := 10,
    leftRelativeFocus := (1/2, 1/2), rightRelativeFocus := (1/2, 1/2),
    logoPosition := (50, 90),
    activeDrag := some DragType.left, dragStart := (50, 50),
    initialDragFocus := (1/2, 1/2), initialLogoPos := (50, 90),
    isTouching := true, isPinching := false,
    initialPinchDistance := 0, pinchSide := none, zoomAtPinchStart := 100 }

theorem clamp_le_right (z a b : ℚ) : clamp z a b ≤ b :=
  min_le_right _ _

theorem le_clamp_left (z a b : ℚ) (hab : a ≤ b) : a ≤ clamp z a b :=
  le_min (le_trans (le_max_right z a) (le_refl _)) hab

theorem clamp_mem (z a b : ℚ) (hab : a ≤ b) :
    a ≤ clamp z a b ∧ clamp z a b ≤ b :=
  ⟨le_clamp_left z a b hab, clamp_le_right z a b⟩

theorem clamp_zero_max (x u : ℚ) :
    clamp x 0 (max 0 u) = if u < 0 then 0 else min (max x 0) u := by
  unfold clamp
  rcases lt_or_le u 0 with h | h
  · rw [if_pos h, max_eq_left h.le, min_eq_right (le_max_right x 0)]
  · rw [if_neg (not_lt.mpr h), max_eq_right h]

/-- Claim C1: per-slot preview draw.  With positive source dimensions and a
positive per-slot destination `dW × dH` (the slot is half of a
`2*dW`-wide canvas), the cover scale is `dH/sourceH` when the source
aspect exceeds the destination aspect and `dW/sourceW` otherwise; the
final scale is `coverScale * (z/100)`; the draw aborts exactly when the
final scale is non-positive (non-finiteness cannot occur over `ℚ`);
otherwise the visible source size is `(dW/finalScale, dH/finalScale)` and
the source top-left is the focus-centred ideal point clamped into
`[0, sourceDim - visibleDim]`, clamped to `0` when that bound is
negative. -/
theorem drawMediaSection_correct (k : MediaKind)
    (w h dW dH z fx fy coverScale finalScale visW visH : ℚ)
    (hw : 0 < w) (hh : 0 < h) (hdW : 0 < dW) (hdH : 0 < dH)
    (hcover : coverScale = if w / h > dW / dH then dH / h else dW / w)
    (hfinal : finalScale = coverScale * (z / 100))
    (hvisW : visW = dW / finalScale) (hvisH : visH = dH / finalScale) :
    (finalScale ≤ 0 →
      drawMediaSection (some ⟨k, w, h⟩) (2 * dW) dH z (fx, fy) = none) ∧
    (0 < finalScale →
      drawMediaSection (some ⟨k, w, h⟩) (2 * dW) dH z (fx, fy) =
        some ⟨if w - visW < 0 then 0 else min (max (w * fx - visW / 2) 0) (w - visW),
              if h - visH < 0 then 0 else min (max (h * fy - visH / 2) 0) (h - visH),
              visW, visH⟩) := by
  subst hcover
  subst hfinal
  subst hvisW
  subst hvisH
  have hguard : ¬(w = 0 ∨ h = 0 ∨ w ≤ 0 ∨ h ≤ 0) := by
    rintro (hc | hc | hc | hc)
    · exact hw.ne' hc
    · exact hh.ne' hc
    · exact absurd hc (not_le.mpr hw)
    · exact absurd hc (not_le.mpr hh)
  simp only [drawMediaSection]
  rw [(by ring : (2 : ℚ) * dW / 2 = dW)]
  rw [if_neg hguard]
  constructor
  · intro hfs
    rw [if_pos hfs]
  · intro hpos
    rw [if_neg (not_le.mpr hpos),
      if_pos ⟨div_pos hdW hpos, div_pos hdH hpos, hdW, hdH⟩,
      clamp_zero_max, clamp_zero_max]

/-- Witness for `drawMediaSection_correct` at a concrete input: a 4×3
image drawn into a 4×3 slot at zoom 100 with centred focus has final
scale 1 and the full source is visible. -/
theorem drawMediaSection_correct_witness :
    ((1 : ℚ) * (100 / 100) ≤ 0 →
      drawMediaSection (some ⟨.image, 4, 3⟩) (2 * 4) 3 100 (1/2, 1/2) = none) ∧
    (0 < (1 : ℚ) * (100 / 100) →
      drawMediaSection (some ⟨.image, 4, 3⟩) (2 * 4) 3 100 (1/2, 1/2) =
        some ⟨if (4 : ℚ) - 4 / (1 * (100 / 100)) < 0 then 0
                else min (max ((4 : ℚ) * (1/2) - 4 / (1 * (100 / 100)) / 2) 0)
                  (4 - 4 / (1 * (100 / 100))),
              if (3 : ℚ) - 3 / (1 * (100 / 100)) < 0 then 0
                else min (max ((3 : ℚ) * (1/2) - 3 / (1 * (100 / 100)) / 2) 0)
                  (3 - 3 / (1 * (100 / 100))),
              4 / (1 * (100 / 100)), 3 / (1 * (100 / 100))⟩) :=
  drawMediaSection_correct .image 4 3 4 3 100 (1/2) (1/2) 1 (1 * (100 / 100))
    (4 / (1 * (100 / 100))) (3 / (1 * (100 / 100)))
    (by norm_num) (by norm_num) (by norm_num) (by norm_num)
    (by norm_num) rfl rfl rfl

theorem drawFinalMedia_agrees (m : Element) (W H z : ℚ) (f : ℚ × ℚ)
    (hW : 0 < W) (hH : 0 < H) :
    drawFinalMedia m W H z f = drawMediaSection (some m) W H z f := by
  simp only [drawFinalMedia, drawMediaSection]
  by_cases hwh : m.w ≤ 0 ∨ m.h ≤ 0
  · rw [if_pos hwh, if_pos (Or.inr (Or.inr hwh))]
  · have hw : 0 < m.w := by push_neg at hwh; exact hwh.1
    have hh : 0 < m.h := by push_neg at hwh; exact hwh.2
    have hguard : ¬(m.w = 0 ∨ m.h = 0 ∨ m.w ≤ 0 ∨ m.h ≤ 0) := by
      rintro (hc | hc | hc | hc)
      · exact hw.ne' hc
      · exact hh.ne' hc
      · exact absurd hc (not_le.mpr hw)
      · exact absurd hc (not_le.mpr hh)
    rw [if_neg hwh, if_neg hguard]
    have hW2 : 0 < W / 2 := half_pos hW
    split_ifs <;> first | rfl | tauto

theorem drawFinalMedia_scale (m : Element) (W H k z : ℚ) (f : ℚ × ℚ)
    (hW : 0 < W) (hH : 0 < H) (hk : 0 < k) :
    drawFinalMedia m (k * W) (k * H) z f = drawFinalMedia m W H z f := by
  simp only [drawFinalMedia]
  by_cases hwh : m.w ≤ 0 ∨ m.h ≤ 0
  · rw [if_pos hwh, if_pos hwh]
  · rw [if_neg hwh, if_neg hwh]
    rw [(by ring : k * W / 2 = k * (W / 2)), mul_div_mul_left _ _ hk.ne']
    by_cases hc : m.w / m.h > W / 2 / H
    · rw [if_pos hc, if_pos hc,
        (by ring : k * H / m.h = k * (H / m.h)),
        (by ring : k * (H / m.h) * (z / 100) = k * (H / m.h * (z / 100)))]
      by_cases hfs : H / m.h * (z / 100) ≤ 0
      · rw [if_pos (by nlinarith : k * (H / m.h * (z / 100)) ≤ 0), if_pos hfs]
      · have hfs' : 0 < H / m.h * (z / 100) := lt_of_not_le hfs
        rw [if_neg (not_le.mpr (mul_pos hk hfs')), if_neg hfs,
          mul_div_mul_left _ _ hk.ne', mul_div_mul_left _ _ hk.ne']
    · rw [if_neg hc, if_neg hc,
        (by ring : k * (W / 2) / m.w = k * (W / 2 / m.w)),
        (by ring : k * (W / 2 / m.w) * (z / 100) = k * (W / 2 / m.w * (z / 100)))]
      by_cases hfs : W / 2 / m.w * (z / 100) ≤ 0
      · rw [if_pos (by nlinarith : k * (W / 2 / m.w * (z / 100)) ≤ 0), if_pos hfs]
      · have hfs' : 0 < W / 2 / m.w * (z / 100) := lt_of_not_le hfs
        rw [if_neg (not_le.mpr (mul_pos hk hfs')), if_neg hfs,
          mul_div_mul_left _ _ hk.ne', mul_div_mul_left _ _ hk.ne']

/-- Claim C2: on identical inputs (source element, zoom, focus) and equal
destination aspect ratio, the export-time per-slot draw (`drawFinalMedia`)
selects exactly the same source rectangle as the live-preview per-slot
draw (`drawMediaSection`): the algorithm is the same function evaluated at
a different destination size. -/
theorem drawFinalMedia_refines_preview (m : Element) (tW tH oW oH z : ℚ)
    (f : ℚ × ℚ) (hw : 0 < m.w) (hh : 0 < m.h)
    (htW : 0 < tW) (htH : 0 < tH) (hoW : 0 < oW) (hoH : 0 < oH)
    (haspect : tW / tH = oW / oH) :
    drawFinalMedia m oW oH z f = drawMediaSection (some m) tW tH z f := by
  have hk : 0 < oH / tH := div_pos hoH htH
  have hcalc : oH / tH * tW = oW := by
    rw [(by ring : oH / tH * tW = oH * (tW / tH)), haspect, ← mul_div_assoc,
      mul_div_cancel_left₀ _ hoH.ne']
  have hcalc2 : oH / tH * tH = oH := div_mul_cancel₀ oH htH.ne'
  have hs := drawFinalMedia_scale m tW tH (oH / tH) z f htW htH hk
  rw [hcalc, hcalc2] at hs
  rw [hs]
  exact drawFinalMedia_agrees m tW tH z f htW htH

/-- Witness for `drawFinalMedia_refines_preview`: an 800×600 image at
zoom 100 and centred focus is cropped identically by the preview draw on
a 16×9 canvas and the export draw on a 2400×1350 canvas. -/
theorem drawFinalMedia_refines_preview_witness :
    drawFinalMedia ⟨.image, 800, 600⟩ 2400 1350 100 (1/2, 1/2) =
      drawMediaSection (some ⟨.image, 800, 600⟩) 16 9 100 (1/2, 1/2) :=
  drawFinalMedia_refines_preview ⟨.image, 800, 600⟩ 16 9 2400 1350 100 (1/2, 1/2)
    (by norm_num) (by norm_num) (by norm_num) (by norm_num) (by norm_num)
    (by norm_num) (by norm_num)

/-- Claim C9: for all (rational-modelled) reals `z a b`, the `clamp`
function of `lib/utils` is idempotent:
`clamp (clamp z a b) a b = clamp z a b`. -/
theorem clamp_idempotent : ∀ z a b : ℚ, clamp (clamp z a b) a b = clamp z a b := by
  intro z a b
  unfold clamp
  rcases le_total a b with hab | hba
  · have h1 : a ≤ min (max z a) b := le_min (le_max_right z a) hab
    rw [max_eq_left h1, min_eq_left (min_le_right (max z a) b)]
  · have h1 : min (max z a) b = b := min_eq_right (le_trans hba (le_max_right z a))
    rw [h1, max_eq_right hba, min_eq_right hba]

theorem scenarioA_export_eval :
    saveCompositeImage scenarioAState (some (16, 9)) = Except.ok scenarioAJob := by
  have hcs : canSaveComposite scenarioAState := by
    norm_num [canSaveComposite, isLoadedImage, scenarioAState]
  unfold saveCompositeImage
  rw [if_pos hcs]
  norm_num [scenarioAState, scenarioAJob, displayAspect, drawFinalMedia, clamp,
    max_def, min_def]

theorem heightCex_export_eval :
    saveCompositeImage heightCexState (some (300, 100)) =
      Except.ok heightCexJob := by
  have hcs : canSaveComposite heightCexState := by
    norm_num [canSaveComposite, isLoadedImage, heightCexState]
  have hceil : ⌈(1600 : ℚ) / 3⌉ = (534 : ℤ) := by
    rw [Int.ceil_eq_iff]
    norm_num
  unfold saveCompositeImage
  rw [if_pos hcs]
  norm_num [heightCexState, heightCexJob, displayAspect, drawFinalMedia, clamp,
    max_def, min_def, hceil]

/-- Claim C4: whenever the left or right slot lacks a loaded image with
positive dimensions, a main slot is still loading, or a provided logo
source is not yet a loaded image (or still loading), the precondition
check `canSaveComposite` denies export and `saveCompositeImage` returns
the not-ready error message without reaching any canvas work. -/
theorem export_denied_when_not_ready (s : CombinerState) (c : Option (ℚ × ℚ))
    (h : ¬isLoadedImage s.leftMediaElement ∨
      ¬isLoadedImage s.rightMediaElement ∨
      s.isLoadingLeft = true ∨ s.isLoadingRight = true ∨
      (s.logo = true ∧
        (¬isLoadedImage s.logoElement ∨ s.isLoadingLogo = true))) :
    ¬canSaveComposite s ∧
      saveCompositeImage s c = Except.error saveErrorNotReady := by
  have hcs : ¬canSaveComposite s := by
    intro hc
    obtain ⟨h1, h2, h3, h4, h5⟩ := hc
    rcases h with h | h | h | h | ⟨ha, hb | hb⟩
    · exact h h1
    · exact h h2
    · exact Bool.false_ne_true (h4.symm.trans h)
    · exact Bool.false_ne_true (h5.symm.trans h)
    · exact hb (h3 ha).1
    · exact Bool.false_ne_true ((h3 ha).2.symm.trans hb)
  refine ⟨hcs, ?_⟩
  unfold saveCompositeImage
  rw [if_neg hcs]

/-- Witness for `export_denied_when_not_ready`: Scenario B, the right
slot still loading, is denied. -/
theorem export_denied_when_not_ready_witness :
    ¬canSaveComposite scenarioBState ∧
      saveCompositeImage scenarioBState none = Except.error saveErrorNotReady :=
  export_denied_when_not_ready scenarioBState none
    (Or.inr (Or.inr (Or.inr (Or.inl (by trivial)))))

/-- Counterexample to Claim C3 as stated: with a 3:1 container the
computed export is 1600×534, and 534 is not `width / aspect = 1600/3`;
the code applies `Math.ceil` to the quotient. -/
theorem export_height_not_exact_quotient :
    Except.map (fun j => (j.width, (j.height : ℚ)))
        (saveCompositeImage heightCexState (some (300, 100))) =
      Except.ok (1600, 534) ∧
    (534 : ℚ) ≠ 1600 / ((300 : ℚ) / 100) := by
  constructor
  · rw [heightCex_export_eval]
    norm_num [Except.map, heightCexJob]
  · norm_num

/-- Claim C3 (amended): a successful export's bitmap width is
`2 × max(leftSourceWidth, rightSourceWidth, 500)` and its height is the
ceiling of that width divided by the live container's aspect ratio
(16:9 when the container cannot be measured); in particular Scenario A
(800×600 left, 1200×900 right, no logo, 16:9 container) exports at
2400×1350. -/
theorem export_dimensions (s : CombinerState) (c : Option (ℚ × ℚ))
    (j : ExportJob) (le re : Element)
    (hL : s.leftMediaElement = some le) (hR : s.rightMediaElement = some re)
    (hok : saveCompositeImage s c = Except.ok j) :
    j.width = 2 * max (max le.w re.w) 500 ∧
    j.height = ⌈j.width / displayAspect c⌉ ∧
    Except.map (fun j2 => (j2.width, j2.height))
        (saveCompositeImage scenarioAState (some (16, 9))) =
      Except.ok (2400, 1350) := by
  unfold saveCompositeImage at hok
  by_cases hcs : canSaveComposite s
  · rw [if_pos hcs] at hok
    simp only [hL, hR] at hok
    split_ifs at hok with hv
    injection hok with hj
    refine ⟨?_, ?_, ?_⟩
    · rw [← hj]; dsimp only; ring
    · rw [← hj]
    · rw [scenarioA_export_eval]
      norm_num [Except.map, scenarioAJob]
  · rw [if_neg hcs] at hok
    exact Except.noConfusion hok

/-- Witness for `export_dimensions` at Scenario A. -/
theorem export_dimensions_witness :
    scenarioAJob.width = 2 * max (max (800 : ℚ) 1200) 500 ∧
    scenarioAJob.height = ⌈scenarioAJob.width / displayAspect (some (16, 9))⌉ ∧
    Except.map (fun j2 => (j2.width, j2.height))
        (saveCompositeImage scenarioAState (some (16, 9))) =
      Except.ok (2400, 1350) :=
  export_dimensions scenarioAState (some (16, 9)) scenarioAJob
    ⟨.image, 800, 600⟩ ⟨.image, 1200, 900⟩ rfl rfl scenarioA_export_eval

/-- Counterexample to Claim C8 as stated: a successful export is offered
for download as `imagem-combinada.png`, not `combined-image.png`. -/
theorem export_filename_counterexample :
    Except.map ExportJob.fileName
        (saveCompositeImage scenarioAState (some (16, 9))) =
      Except.ok "imagem-combinada.png" ∧
    Except.map ExportJob.fileName
        (saveCompositeImage scenarioAState (some (16, 9))) ≠
      Except.ok "combined-image.png" := by
  rw [scenarioA_export_eval]
  constructor
  · rfl
  · simp [Except.map, scenarioAJob]

/-- Claim C8 (amended): every successful export is encoded as a PNG
raster (`image/png`, quality 0.95) and offered as a browser-triggered
download named `imagem-combinada.png`. -/
theorem export_artifact_parameters (s : CombinerState) (c : Option (ℚ × ℚ))
    (j : ExportJob) (hok : saveCompositeImage s c = Except.ok j) :
    j.fileName = "imagem-combinada.png" ∧ j.mimeType = "image/png" ∧
      j.quality = 95 / 100 := by
  unfold saveCompositeImage at hok
  by_cases hcs : canSaveComposite s
  · rw [if_pos hcs] at hok
    rcases hL : s.leftMediaElement with _ | le
    · simp only [hL] at hok
      exact Except.noConfusion hok
    · rcases hR : s.rightMediaElement with _ | re
      · simp only [hL, hR] at hok
        exact Except.noConfusion hok
      · simp only [hL, hR] at hok
        split_ifs at hok with hv
        injection hok with hj
        rw [← hj]
        exact ⟨rfl, rfl, rfl⟩
  · rw [if_neg hcs] at hok
    exact Except.noConfusion hok

/-- Witness for `export_artifact_parameters` at Scenario A. -/
theorem export_artifact_parameters_witness :
    scenarioAJob.fileName = "imagem-combinada.png" ∧
      scenarioAJob.mimeType = "image/png" ∧ scenarioAJob.quality = 95 / 100 :=
  export_artifact_parameters scenarioAState (some (16, 9)) scenarioAJob
    scenarioA_export_eval

/-- Claim C6: every media-load attempt is bounded by a 20-second timeout;
when the decode does not settle before it, the attempt rejects with the
timeout error and the in-flight element's `src` is cleared (an active
halt), and applying the rejected attempt to a freshly started slot load
leaves `loading = false` and `element = none`. -/
theorem load_timeout_halts (k : MediaKind) (outcome : DecodeOutcome)
    (s : SlotState) (hto : timedOut outcome) :
    timeoutMs = 20000 ∧
    (loadMediaElement (some k) outcome).result = Except.error LoadError.timeout ∧
    (loadMediaElement (some k) outcome).srcCleared = true ∧
    (applyLoadResult (loadMediaEffectBegin s)
        (loadMediaElement (some k) outcome).result).loading = false ∧
    (applyLoadResult (loadMediaEffectBegin s)
        (loadMediaElement (some k) outcome).result).element = none := by
  have hres : loadMediaElement (some k) outcome =
      { result := Except.error LoadError.timeout, srcCleared := true } := by
    cases outcome with
    | completes t w h =>
      simp only [loadMediaElement]
      rw [if_neg (not_lt.mpr hto)]
    | fails t =>
      simp only [loadMediaElement]
      rw [if_neg (not_lt.mpr hto)]
    | hangs => rfl
  rw [hres]
  exact ⟨rfl, rfl, rfl, rfl, rfl⟩

/-- Witness for `load_timeout_halts`: a decode whose ready event would
only fire at 25 seconds times out. -/
theorem load_timeout_halts_witness :
    timeoutMs = 20000 ∧
    (loadMediaElement (some .image) (.completes 25000 100 100)).result =
      Except.error LoadError.timeout ∧
    (loadMediaElement (some .image) (.completes 25000 100 100)).srcCleared = true ∧
    (applyLoadResult (loadMediaEffectBegin ⟨none, false, none, 100, (1/2, 1/2)⟩)
        (loadMediaElement (some .image) (.completes 25000 100 100)).result).loading
      = false ∧
    (applyLoadResult (loadMediaEffectBegin ⟨none, false, none, 100, (1/2, 1/2)⟩)
        (loadMediaElement (some .image) (.completes 25000 100 100)).result).element
      = none :=
  load_timeout_halts .image (.completes 25000 100 100)
    ⟨none, false, none, 100, (1/2, 1/2)⟩ (by norm_num [timedOut, timeoutMs])

/-- Claim C10: starting a load for a newly selected source resets the
slot's view parameters regardless of the previous state: a left/right
slot returns to zoom 100 and centred focus, and the logo returns to
position (50, 90) and relative width 10, before the new element loads. -/
theorem new_source_resets_view (s : SlotState) (ls : LogoSlotState) :
    (loadMediaEffectBegin s).zoom = 100 ∧
    (loadMediaEffectBegin s).relativeFocus = (1/2, 1/2) ∧
    (loadMediaEffectBegin s).element = none ∧
    (loadMediaEffectBegin s).loading = true ∧
    (loadLogoEffectBegin ls).position = (50, 90) ∧
    (loadLogoEffectBegin ls).zoom = 10 ∧
    (loadLogoEffectBegin ls).element = none ∧
    (loadLogoEffectBegin ls).loading = true :=
  ⟨rfl, rfl, rfl, rfl, rfl, rfl, rfl, rfl⟩

theorem handleTouchMove_pinch (s : PreviewState) (side : PinchSide)
    (cw ch d' : ℚ) (hp : s.isPinching = true) (hps : s.pinchSide = some side)
    (hd : 0 < s.initialPinchDistance) :
    sideZoom (handleTouchMove s cw ch (.two d')) side =
      clamp (s.zoomAtPinchStart * (d' / s.initialPinchDistance))
        MIN_ZOOM MAX_ZOOM := by
  simp only [handleTouchMove]
  rw [if_pos ⟨hp, by rw [hps]; rfl⟩, if_neg (not_le.mpr hd), hps]
  cases side
  case left =>
    dsimp only
    by_cases hz : s.leftZoom ≠
      clamp (s.zoomAtPinchStart * (d' / s.initialPinchDistance)) MIN_ZOOM MAX_ZOOM
    · rw [if_pos hz]
      rfl
    · rw [if_neg hz]
      exact not_ne_iff.mp hz
  case right =>
    dsimp only
    by_cases hz : s.rightZoom ≠
      clamp (s.zoomAtPinchStart * (d' / s.initialPinchDistance)) MIN_ZOOM MAX_ZOOM
    · rw [if_pos hz]
      rfl
    · rw [if_neg hz]
      exact not_ne_iff.mp hz

/-- Claim C5: a second simultaneous touch over a left/right slot while a
one-finger drag is mid-flight cancels the drag and begins a pinch whose
baseline is the current two-finger distance and whose zoom snapshot is
the slot's current zoom; every subsequent two-finger move sets the slot's
zoom to the snapshot multiplied by the ratio of the current distance to
the baseline, clamped to [10, 500]. -/
theorem pinch_preempts_drag (s : PreviewState) (side : PinchSide)
    (d d' cw ch : ℚ) (hdrag : s.activeDrag = some (pinchSideDrag side))
    (htouch : s.isTouching = true)
    (hmedia : mediaExists s (pinchSideDrag side) = true) (hd : 0 < d) :
    ((handleTouchStart s (pinchSideDrag side) (.two d)).activeDrag = none ∧
     (handleTouchStart s (pinchSideDrag side) (.two d)).isPinching = true ∧
     (handleTouchStart s (pinchSideDrag side) (.two d)).pinchSide = some side ∧
     (handleTouchStart s (pinchSideDrag side) (.two d)).initialPinchDistance = d ∧
     (handleTouchStart s (pinchSideDrag side) (.two d)).zoomAtPinchStart =
       sideZoom s side) ∧
    sideZoom (handleTouchMove (handleTouchStart s (pinchSideDrag side) (.two d))
        cw ch (.two d')) side =
      clamp (sideZoom s side * (d' / d)) 10 500 := by
  have hsome : s.activeDrag.isSome = true := by rw [hdrag]; rfl
  cases side
  case left =>
    have h1 : handleTouchStart s (pinchSideDrag .left) (.two d) =
        { handleDragEnd s with
          isPinching := true, isTouching := false,
          pinchSide := some PinchSide.left, initialPinchDistance := d,
          zoomAtPinchStart := s.leftZoom } := by
      have hm' : mediaExists s DragType.left = true := hmedia
      simp [handleTouchStart, hm', hsome, handleDragEnd, pinchSideDrag]
    rw [h1]
    refine ⟨⟨rfl, rfl, rfl, rfl, rfl⟩, ?_⟩
    exact handleTouchMove_pinch _ PinchSide.left cw ch d' rfl rfl hd
  case right =>
    have h1 : handleTouchStart s (pinchSideDrag .right) (.two d) =
        { handleDragEnd s with
          isPinching := true, isTouching := false,
          pinchSide := some PinchSide.right, initialPinchDistance := d,
          zoomAtPinchStart := s.rightZoom } := by
      have hm' : mediaExists s DragType.right = true := hmedia
      simp [handleTouchStart, hm', hsome, handleDragEnd, pinchSideDrag]
    rw [h1]
    refine ⟨⟨rfl, rfl, rfl, rfl, rfl⟩, ?_⟩
    exact handleTouchMove_pinch _ PinchSide.right cw ch d' rfl rfl hd

/-- Witness for `pinch_preempts_drag`: a drag on the left slot is
preempted by a two-finger touch at distance 10; a pinch move at distance
20 doubles the zoom (clamped). -/
theorem pinch_preempts_drag_witness :
    ((handleTouchStart dragState (pinchSideDrag .left) (.two 10)).activeDrag = none ∧
     (handleTouchStart dragState (pinchSideDrag .left) (.two 10)).isPinching = true ∧
     (handleTouchStart dragState (pinchSideDrag .left) (.two 10)).pinchSide =
       some PinchSide.left ∧
     (handleTouchStart dragState (pinchSideDrag .left) (.two 10)).initialPinchDistance
       = 10 ∧
     (handleTouchStart dragState (pinchSideDrag .left) (.two 10)).zoomAtPinchStart =
       sideZoom dragState .left) ∧
    sideZoom (handleTouchMove (handleTouchStart dragState (pinchSideDrag .left)
        (.two 10)) 200 100 (.two 20)) .left =
      clamp (sideZoom dragState .left * (20 / 10)) 10 500 :=
  pinch_preempts_drag dragState .left 10 20 200 100 rfl rfl rfl (by norm_num)

theorem panMedia_mem (m : Element) (zoom : ℚ) (f0 : ℚ × ℚ)
    (dx dy phw ch : ℚ) (f : ℚ × ℚ)
    (h : panMedia m zoom f0 dx dy phw ch = some f) :
    0 ≤ f.1 ∧ f.1 ≤ 1 ∧ 0 ≤ f.2 ∧ f.2 ≤ 1 := by
  unfold panMedia at h
  dsimp only at h
  split_ifs at h <;>
    (injection h with h
     rw [← h]
     exact ⟨(clamp_mem _ 0 1 (by norm_num)).1, (clamp_mem _ 0 1 (by norm_num)).2,
       (clamp_mem _ 0 1 (by norm_num)).1, (clamp_mem _ 0 1 (by norm_num)).2⟩)

theorem handleDragMove_writes_clamped (s : PreviewState) (cw ch x y : ℚ) :
    ((handleDragMove s cw ch x y).leftRelativeFocus = s.leftRelativeFocus ∨
      (0 ≤ (handleDragMove s cw ch x y).leftRelativeFocus.1 ∧
       (handleDragMove s cw ch x y).leftRelativeFocus.1 ≤ 1 ∧
       0 ≤ (handleDragMove s cw ch x y).leftRelativeFocus.2 ∧
       (handleDragMove s cw ch x y).leftRelativeFocus.2 ≤ 1)) ∧
    ((handleDragMove s cw ch x y).rightRelativeFocus = s.rightRelativeFocus ∨
      (0 ≤ (handleDragMove s cw ch x y).rightRelativeFocus.1 ∧
       (handleDragMove s cw ch x y).rightRelativeFocus.1 ≤ 1 ∧
       0 ≤ (handleDragMove s cw ch x y).rightRelativeFocus.2 ∧
       (handleDragMove s cw ch x y).rightRelativeFocus.2 ≤ 1)) ∧
    ((handleDragMove s cw ch x y).logoPosition = s.logoPosition ∨
      (0 ≤ (handleDragMove s cw ch x y).logoPosition.1 ∧
       (handleDragMove s cw ch x y).logoPosition.1 ≤ 100 ∧
       0 ≤ (handleDragMove s cw ch x y).logoPosition.2 ∧
       (handleDragMove s cw ch x y).logoPosition.2 ≤ 100)) := by
  unfold handleDragMove
  by_cases h1 : s.activeDrag = none ∨ s.isPinching = true
  · rw [if_pos h1]
    exact ⟨Or.inl (by trivial), Or.inl (by trivial), Or.inl (by trivial)⟩
  · rw [if_neg h1]
    by_cases h2 : cw ≤ 0 ∨ ch ≤ 0
    · rw [if_pos h2]
      exact ⟨Or.inl (by trivial), Or.inl (by trivial), Or.inl (by trivial)⟩
    · rw [if_neg h2]
      dsimp only
      rcases hdrag : s.activeDrag with _ | ty
      · simp only [hdrag]
        exact ⟨Or.inl (by trivial), Or.inl (by trivial), Or.inl (by trivial)⟩
      · cases ty with
        | left =>
          simp only [hdrag]
          rcases hm : s.leftMediaElement with _ | m
          · simp only [hm]
            exact ⟨Or.inl (by trivial), Or.inl (by trivial), Or.inl (by trivial)⟩
          · simp only [hm]
            rcases hp : panMedia m s.leftZoom s.initialDragFocus
              (x - s.dragStart.1) (y - s.dragStart.2) (cw / 2) ch with _ | f
            · simp only [hp]
              exact ⟨Or.inl (by trivial), Or.inl (by trivial), Or.inl (by trivial)⟩
            · simp only [hp]
              by_cases hne : f ≠ s.leftRelativeFocus
              · rw [if_pos hne]
                exact ⟨Or.inr (panMedia_mem m s.leftZoom s.initialDragFocus
                  (x - s.dragStart.1) (y - s.dragStart.2) (cw / 2) ch f hp),
                  Or.inl (by trivial), Or.inl (by trivial)⟩
              · rw [if_neg hne]
                exact ⟨Or.inl (by trivial), Or.inl (by trivial), Or.inl (by trivial)⟩
        | right =>
          simp only [hdrag]
          rcases hm : s.rightMediaElement with _ | m
          · simp only [hm]
            exact ⟨Or.inl (by trivial), Or.inl (by trivial), Or.inl (by trivial)⟩
          · simp only [hm]
            rcases hp : panMedia m s.rightZoom s.initialDragFocus
              (x - s.dragStart.1) (y - s.dragStart.2) (cw / 2) ch with _ | f
            · simp only [hp]
              exact ⟨Or.inl (by trivial), Or.inl (by trivial), Or.inl (by trivial)⟩
            · simp only [hp]
              by_cases hne : f ≠ s.rightRelativeFocus
              · rw [if_pos hne]
                exact ⟨Or.inl (by trivial), Or.inr (panMedia_mem m s.rightZoom
                  s.initialDragFocus (x - s.dragStart.1) (y - s.dragStart.2)
                  (cw / 2) ch f hp), Or.inl (by trivial)⟩
              · rw [if_neg hne]
                exact ⟨Or.inl (by trivial), Or.inl (by trivial), Or.inl (by trivial)⟩
        | logo =>
          simp only [hdrag]
          rcases hm : s.logoElement with _ | m
          · simp only [hm]
            exact ⟨Or.inl (by trivial), Or.inl (by trivial), Or.inl (by trivial)⟩
          · simp only [hm]
            by_cases hne : (clamp (s.initialLogoPos.1 + (x - s.dragStart.1) / cw * 100) 0 100,
                clamp (s.initialLogoPos.2 + (y - s.dragStart.2) / ch * 100) 0 100) ≠
                s.logoPosition
            · rw [if_pos hne]
              exact ⟨Or.inl (by trivial), Or.inl (by trivial), Or.inr
                ⟨(clamp_mem _ 0 100 (by norm_num)).1,
                 (clamp_mem _ 0 100 (by norm_num)).2,
                 (clamp_mem _ 0 100 (by norm_num)).1,
                 (clamp_mem _ 0 100 (by norm_num)).2⟩⟩
            · rw [if_neg hne]
              exact ⟨Or.inl (by trivial), Or.inl (by trivial), Or.inl (by trivial)⟩

/-- Claim C7: every focus or position value stored by a drag move is
clamped to its domain before being stored — a left/right focus written by
`handleDragMove` lies in `[0,1] × [0,1]` and a logo position it writes
lies in `[0,100] × [0,100]` — and the control panel's direct numeric
inputs clamp each logo coordinate into `[0,100]`, so entering
`{x: 150, y: -10}` stores `{x: 100, y: 0}`. -/
theorem stored_focus_clamped (s : PreviewState) (cw ch x y : ℚ)
    (pos : ℚ × ℚ) (v : ℚ) :
    ((handleDragMove s cw ch x y).leftRelativeFocus ≠ s.leftRelativeFocus →
      (0 ≤ (handleDragMove s cw ch x y).leftRelativeFocus.1 ∧
       (handleDragMove s cw ch x y).leftRelativeFocus.1 ≤ 1 ∧
       0 ≤ (handleDragMove s cw ch x y).leftRelativeFocus.2 ∧
       (handleDragMove s cw ch x y).leftRelativeFocus.2 ≤ 1)) ∧
    ((handleDragMove s cw ch x y).rightRelativeFocus ≠ s.rightRelativeFocus →
      (0 ≤ (handleDragMove s cw ch x y).rightRelativeFocus.1 ∧
       (handleDragMove s cw ch x y).rightRelativeFocus.1 ≤ 1 ∧
       0 ≤ (handleDragMove s cw ch x y).rightRelativeFocus.2 ∧
       (handleDragMove s cw ch x y).rightRelativeFocus.2 ≤ 1)) ∧
    ((handleDragMove s cw ch x y).logoPosition ≠ s.logoPosition →
      (0 ≤ (handleDragMove s cw ch x y).logoPosition.1 ∧
       (handleDragMove s cw ch x y).logoPosition.1 ≤ 100 ∧
       0 ≤ (handleDragMove s cw ch x y).logoPosition.2 ∧
       (handleDragMove s cw ch x y).logoPosition.2 ≤ 100)) ∧
    (0 ≤ (controlPanelSetLogoX pos v).1 ∧ (controlPanelSetLogoX pos v).1 ≤ 100 ∧
     0 ≤ (controlPanelSetLogoY pos v).2 ∧ (controlPanelSetLogoY pos v).2 ≤ 100) ∧
    controlPanelSetLogoY (controlPanelSetLogoX pos 150) (-10) = (100, 0) := by
  have hmain := handleDragMove_writes_clamped s cw ch x y
  refine ⟨?_, ?_, ?_, ?_, ?_⟩
  · intro hne
    rcases hmain.1 with h | h
    · exact absurd h hne
    · exact h
  · intro hne
    rcases hmain.2.1 with h | h
    · exact absurd h hne
    · exact h
  · intro hne
    rcases hmain.2.2 with h | h
    · exact absurd h hne
    · exact h
  · exact ⟨(clamp_mem v 0 100 (by norm_num)).1, (clamp_mem v 0 100 (by norm_num)).2,
      (clamp_mem v 0 100 (by norm_num)).1, (clamp_mem v 0 100 (by norm_num)).2⟩
  · unfold controlPanelSetLogoX controlPanelSetLogoY clamp
    norm_num

/-- Witness for `stored_focus_clamped`: a concrete drag on the left slot
moves the stored focus to (2/5, 1/2), inside the unit square, and the
Scenario E numeric input stores (100, 0). -/
theorem stored_focus_clamped_witness :
    (0 ≤ (handleDragMove dragState 200 100 60 50).leftRelativeFocus.1 ∧
     (handleDragMove dragState 200 100 60 50).leftRelativeFocus.1 ≤ 1 ∧
     0 ≤ (handleDragMove dragState 200 100 60 50).leftRelativeFocus.2 ∧
     (handleDragMove dragState 200 100 60 50).leftRelativeFocus.2 ≤ 1) ∧
    controlPanelSetLogoY (controlPanelSetLogoX (50, 90) 150) (-10) = (100, 0) := by
  have h := stored_focus_clamped dragState 200 100 60 50 (50, 90) 0
  have hne : (handleDragMove dragState 200 100 60 50).leftRelativeFocus ≠
      dragState.leftRelativeFocus := by
    norm_num [handleDragMove, panMedia, clamp, dragState, max_def, min_def,
      Option.some_ne_none]
  exact ⟨h.1 hne, h.2.2.2.2⟩

end Combiner
